import Mathlib

set_option linter.unusedVariables false
set_option linter.unnecessarySimpa false

/-! Shallow embedding of DuetLapse.py: the print-lifecycle state machine and
capture-trigger engine.  Python floats are modelled as rationals (the script
compares them with exact equality and order, never with an epsilon); the
substring tests the script performs on printer status strings are modelled by
a record of the four membership results. -/

/-- Camera kinds accepted by the -camera flag (choices usb, pi, web, dslr). -/
inductive Camera
  | usb
  | pi
  | web
  | dslr
deriving DecidableEq

/-- Values of the -detect flag (choices layer, pause, none). -/
inductive Detect
  | layer
  | pause
  | none
deriving DecidableEq

/-- Values of the -pause flag (choices yes, no). -/
inductive PauseMode
  | yes
  | no
deriving DecidableEq

/-- G-code commands the script sends: M25 (request pause), M400 (wait for the
motion queue to drain), M24 (resume), G1 (move the head to X Y). -/
inductive GCode
  | M25
  | M400
  | M24
  | G1 (x y : ℚ)
deriving DecidableEq

/-- Which call site of onePhoto produced a capture: the layer-change branch,
the elapsed-seconds branch, or the detected-pause branch of oneInterval. -/
inductive Reason
  | layer
  | interval
  | pauseDetected
deriving DecidableEq

/-- Observable actions of the engine: a g-code command sent to the printer, or
a captured frame (onePhoto) together with the frame number used in its name. -/
inductive Event
  | cmd (g : GCode)
  | capture (idx : ℕ) (r : Reason)
deriving DecidableEq

/-- Result of the membership tests the script applies to printer.getStatus():
hasProcessing for substring processing, hasM for substring M, hasPaused for
substring paused, hasIdle for substring idle. -/
structure Status where
  hasProcessing : Bool
  hasM : Bool
  hasPaused : Bool
  hasIdle : Bool
deriving DecidableEq

/-- One poll tick worth of inputs: printer.getCoords() gives x, y, z;
printer.getStatus() gives status; time.time() gives now.  Within a tick the
script may read these several times; they are modelled as one consistent
sample. -/
structure Sample where
  x : ℚ
  y : ℚ
  z : ℚ
  status : Status
  now : ℚ
deriving DecidableEq

/-- The run configuration globals set by init from the command line:
seconds, detect, pause, movehead. -/
structure Config where
  seconds : ℚ
  detect : Detect
  pause : PauseMode
  movehead : ℚ × ℚ
deriving DecidableEq

/-- The mutable globals of the engine: zo (old Z), frame (frame counter),
timePriorPhoto (time of last photo) and alreadyPaused. -/
structure EngineState where
  zo : ℚ
  frame : ℕ
  timePriorPhoto : ℚ
  alreadyPaused : Bool
deriving DecidableEq

/-- Initial values of the globals: zo = 0, frame = 0, timePriorPhoto = 0,
alreadyPaused = False. -/
def engineInit : EngineState :=
  { zo := 0, frame := 0, timePriorPhoto := 0, alreadyPaused := false }

/-- checkForcePause: returns early if alreadyPaused or pause is not yes;
otherwise issues M25 then M400, sets alreadyPaused, and if movehead is not
(0, 0) also issues the G1 move followed by another M400.  Returns the new
alreadyPaused flag and the commands issued. -/
def checkForcePause (cfg : Config) (alreadyPaused : Bool) : Bool × List GCode :=
  if alreadyPaused then (alreadyPaused, [])
  else if ¬ (cfg.pause = PauseMode.yes) then (alreadyPaused, [])
  else if ¬ (cfg.movehead = ((0 : ℚ), (0 : ℚ))) then
    (true, [GCode.M25, GCode.M400, GCode.G1 cfg.movehead.1 cfg.movehead.2, GCode.M400])
  else (true, [GCode.M25, GCode.M400])

/-- unPause: if alreadyPaused, issues M24 and clears the flag. -/
def unPause (alreadyPaused : Bool) : Bool × List GCode :=
  if alreadyPaused then (false, [GCode.M24]) else (alreadyPaused, [])

/-- onePhoto: increments frame, writes the image named by the new frame value,
and sets timePriorPhoto to the current time.  The Reason argument records
which branch of oneInterval called it. -/
def onePhoto (r : Reason) (now : ℚ) (s : EngineState) : EngineState × Event :=
  ({ s with frame := s.frame + 1, timePriorPhoto := now },
   Event.capture (s.frame + 1) r)

/-- The layer branch of oneInterval: when detect is layer, reads zn = Z and,
when zn differs from zo, runs checkForcePause then onePhoto; zo is set to zn
whether or not a capture fired. -/
def layerBranch (cfg : Config) (smp : Sample) (s : EngineState) :
    EngineState × List Event :=
  if cfg.detect = Detect.layer then
    if ¬ (smp.z = s.zo) then
      let cp := checkForcePause cfg s.alreadyPaused
      let ph := onePhoto Reason.layer smp.now { s with alreadyPaused := cp.1 }
      ({ ph.1 with zo := smp.z }, cp.2.map Event.cmd ++ [ph.2])
    else ({ s with zo := smp.z }, [])
  else (s, [])

/-- The seconds branch of oneInterval: elap is the time since timePriorPhoto
as it stands after the layer branch; when seconds is nonzero (Python
truthiness) and seconds < elap, runs checkForcePause then onePhoto. -/
def intervalBranch (cfg : Config) (smp : Sample) (s : EngineState) :
    EngineState × List Event :=
  if cfg.seconds ≠ 0 ∧ cfg.seconds < smp.now - s.timePriorPhoto then
    let cp := checkForcePause cfg s.alreadyPaused
    let ph := onePhoto Reason.interval smp.now { s with alreadyPaused := cp.1 }
    (ph.1, cp.2.map Event.cmd ++ [ph.2])
  else (s, [])

/-- The detected-pause branch of oneInterval: when detect is pause and the
status contains paused, runs onePhoto (note: without checkForcePause). -/
def pauseBranch (cfg : Config) (smp : Sample) (s : EngineState) :
    EngineState × List Event :=
  if cfg.detect = Detect.pause ∧ smp.status.hasPaused = true then
    let ph := onePhoto Reason.pauseDetected smp.now s
    (ph.1, [ph.2])
  else (s, [])

/-- oneInterval: the layer branch, then the seconds branch, then the
detected-pause branch, then unPause.  Returns the new engine state and the
events of the tick in order. -/
def oneInterval (cfg : Config) (smp : Sample) (s : EngineState) :
    EngineState × List Event :=
  let b1 := layerBranch cfg smp s
  let b2 := intervalBranch cfg smp b1.1
  let b3 := pauseBranch cfg smp b2.1
  let up := unPause b3.1.alreadyPaused
  ({ b3.1 with alreadyPaused := up.1 },
   b1.2 ++ b2.2 ++ b3.2 ++ up.2.map Event.cmd)

/-- Engine trace: the per-tick event lists produced by running oneInterval on
each sample in turn while the printer state stays Printing. -/
def runEngine (cfg : Config) : EngineState → List Sample → List (List Event)
  | _, [] => []
  | s, smp :: rest =>
      (oneInterval cfg smp s).2 :: runEngine cfg (oneInterval cfg smp s).1 rest

/-- Engine state after running oneInterval on each sample in turn. -/
def engineFinal (cfg : Config) : EngineState → List Sample → EngineState
  | s, [] => s
  | s, smp :: rest => engineFinal cfg (oneInterval cfg smp s).1 rest

/-- Events of the main loop: an engine event from a Printing tick, or the
single postProcess video-assembly invocation (carrying the frame count). -/
inductive MainEvent
  | engine (e : Event)
  | assembleVideo (frames : ℕ)
deriving DecidableEq

/-- The main polling loop.  printerState 0: waits for a status containing
processing or M, then moves to 1.  printerState 1: runs oneInterval on the
sample, then moves to 2 when the same sample contains idle.  printerState 2:
the next iteration polls one more status (ignored) and calls postProcess,
which assembles the video from the frames taken so far and exits the process,
so the remaining samples are never consumed.  Any other state value is
unreachable and loops without effect. -/
def run (cfg : Config) : ℕ → EngineState → List Sample → List MainEvent
  | _, _, [] => []
  | 0, es, smp :: rest =>
      if smp.status.hasProcessing || smp.status.hasM then run cfg 1 es rest
      else run cfg 0 es rest
  | 1, es, smp :: rest =>
      (oneInterval cfg smp es).2.map MainEvent.engine ++
        run cfg (if smp.status.hasIdle then 2 else 1) (oneInterval cfg smp es).1 rest
  | 2, es, _ :: _ => [MainEvent.assembleVideo es.frame]
  | n + 3, es, _ :: rest => run cfg (n + 3) es rest

/-- True on capture events, false on commands. -/
def Event.isCapture : Event → Bool
  | Event.capture _ _ => true
  | _ => false

/-- Number of captures (onePhoto invocations) in an event list. -/
def countCaptures (evs : List Event) : ℕ :=
  (evs.filter Event.isCapture).length

/-- Frame numbers of the captures in an event list, in order. -/
def captureIndices (evs : List Event) : List ℕ :=
  evs.filterMap fun e =>
    match e with
    | Event.capture k _ => some k
    | _ => Option.none

/-- Number of captures in an event list that came from the given branch. -/
def countReason (r : Reason) (evs : List Event) : ℕ :=
  (evs.filter fun e =>
    match e with
    | Event.capture _ r2 => decide (r2 = r)
    | _ => false).length

/-- Characters of the -camera choice strings usb, pi, web, dslr. -/
def cameraChars : Camera → List Char
  | Camera.usb => ['u', 's', 'b']
  | Camera.pi => ['p', 'i']
  | Camera.web => ['w', 'e', 'b']
  | Camera.dslr => ['d', 's', 'l', 'r']

/-- Where control leaves the option-combination checks of init: one of the
exit(2) calls, or falling through towards the dependency checks and the
printer connection.  The constructors appear in source order; every exit
happens before any connection to the printer is attempted. -/
inductive InitOutcome
  | exitUnsupportedCamera
  | exitMoveheadCombo
  | exitPauseDetectCombo
  | connectPrinter
deriving DecidableEq

/-- The option checks of init, in source order.  The first test reproduces
the literal substring test for the four characters d, l, s, r inside the
camera choice (a misspelling of dslr in the source, so it never fires).  The
seconds/detect combination only prints a warning and is passed through; it
does not exit.  The movehead check exits unless -pause yes or -detect pause;
the last check exits when -pause yes and -detect pause are combined. -/
def initValidate (cam : Camera) (seconds : ℚ) (det : Detect) (p : PauseMode)
    (movehead : ℚ × ℚ) : InitOutcome :=
  if ['d', 'l', 's', 'r'] <:+: cameraChars cam then InitOutcome.exitUnsupportedCamera
  else if ¬ (movehead = ((0 : ℚ), (0 : ℚ))) ∧ ¬ (p = PauseMode.yes) ∧
      ¬ (det = Detect.pause) then
    InitOutcome.exitMoveheadCombo
  else if p = PauseMode.yes ∧ det = Detect.pause then InitOutcome.exitPauseDetectCombo
  else InitOutcome.connectPrinter

/-- Process exit code produced by each init outcome: every failed check calls
exit(2); reaching the connection step exits through other paths later. -/
def exitCode : InitOutcome → Option ℕ
  | InitOutcome.connectPrinter => Option.none
  | _ => some 2

/-- A status string containing none of the tested substrings. -/
def statusQuiet : Status :=
  { hasProcessing := false, hasM := false, hasPaused := false, hasIdle := false }

/-- A status string containing processing (print in progress). -/
def statusProcessing : Status :=
  { hasProcessing := true, hasM := false, hasPaused := false, hasIdle := false }

/-- A status string containing paused. -/
def statusPaused : Status :=
  { hasProcessing := false, hasM := false, hasPaused := true, hasIdle := false }

/-- A status string containing idle (print over). -/
def statusIdle : Status :=
  { hasProcessing := false, hasM := false, hasPaused := false, hasIdle := true }

/-- A Printing-state sample at height z with a quiet status, at time 0. -/
def mkSample (z : ℚ) : Sample :=
  { x := 0, y := 0, z := z, status := statusQuiet, now := 0 }

/-- The configuration -detect layer with no seconds trigger and no forced
pause: the default configuration apart from -duet. -/
def cfgLayer : Config :=
  { seconds := 0, detect := Detect.layer, pause := PauseMode.no, movehead := (0, 0) }

/-- The Z samples of end-to-end scenario A: 0.2, 0.2, 0.4 while Printing. -/
def scenarioA : List Sample :=
  [mkSample 0.2, mkSample 0.2, mkSample 0.4]

/-- Number of entries of a Z sequence that differ from their predecessor,
the first entry being compared with z0 (the initial value of the global zo,
which the source initialises to 0, not to a none sentinel). -/
def layerChangeCount : ℚ → List ℚ → ℕ
  | _, [] => 0
  | z0, z :: zs => (if z = z0 then 0 else 1) + layerChangeCount z zs

/-! Enum disequalities used to discharge if-conditions in concrete runs. -/

lemma pause_no_ne_yes : ¬ PauseMode.no = PauseMode.yes := by decide

lemma det_layer_ne_pause : ¬ Detect.layer = Detect.pause := by decide

lemma det_pause_ne_layer : ¬ Detect.pause = Detect.layer := by decide

lemma det_none_ne_layer : ¬ Detect.none = Detect.layer := by decide

lemma det_none_ne_pause : ¬ Detect.none = Detect.pause := by decide

/-! Counting helpers. -/

lemma countCaptures_append (a b : List Event) :
    countCaptures (a ++ b) = countCaptures a + countCaptures b := by
  simp [countCaptures, List.filter_append]

lemma countCaptures_cmds (l : List GCode) :
    countCaptures (l.map Event.cmd) = 0 := by
  induction l with
  | nil => rfl
  | cons g l ih => simpa [countCaptures, Event.isCapture] using ih

lemma countCaptures_single_capture (k : ℕ) (r : Reason) :
    countCaptures [Event.capture k r] = 1 := rfl

lemma captureIndices_append (a b : List Event) :
    captureIndices (a ++ b) = captureIndices a ++ captureIndices b := by
  simp [captureIndices]

lemma captureIndices_cmds (l : List GCode) :
    captureIndices (l.map Event.cmd) = [] := by
  induction l with
  | nil => rfl
  | cons g l ih => simpa [captureIndices] using ih

lemma countReason_append (r : Reason) (a b : List Event) :
    countReason r (a ++ b) = countReason r a + countReason r b := by
  simp [countReason, List.filter_append]

lemma countReason_cmds (r : Reason) (l : List GCode) :
    countReason r (l.map Event.cmd) = 0 := by
  induction l with
  | nil => rfl
  | cons g l ih => simpa [countReason] using ih

lemma countReason_single (r r2 : Reason) (k : ℕ) :
    countReason r [Event.capture k r2] = if r2 = r then 1 else 0 := by
  by_cases h : r2 = r <;> simp [countReason, h]

lemma capture_notMem_cmds (k : ℕ) (r : Reason) (l : List GCode) :
    Event.capture k r ∉ l.map Event.cmd := by
  simp

lemma cmd_notMem_single_capture (g : GCode) (k : ℕ) (r : Reason) :
    Event.cmd g ∉ [Event.capture k r] := by
  simp

/-! Equations for checkForcePause and unPause. -/

lemma checkForcePause_already (cfg : Config) :
    checkForcePause cfg true = (true, []) := by
  simp [checkForcePause]

lemma checkForcePause_noPause (cfg : Config) (ap : Bool)
    (h : ¬ cfg.pause = PauseMode.yes) :
    checkForcePause cfg ap = (ap, []) := by
  cases ap <;> simp [checkForcePause, h]

lemma checkForcePause_fires (cfg : Config) (h : cfg.pause = PauseMode.yes) :
    checkForcePause cfg false =
      (true,
        if ¬ cfg.movehead = ((0 : ℚ), (0 : ℚ)) then
          [GCode.M25, GCode.M400, GCode.G1 cfg.movehead.1 cfg.movehead.2, GCode.M400]
        else [GCode.M25, GCode.M400]) := by
  have hz : ((0 : ℚ), (0 : ℚ)) = (0 : ℚ × ℚ) := rfl
  by_cases hm : cfg.movehead = ((0 : ℚ), (0 : ℚ)) <;>
    simp [checkForcePause, h, hm, hz ▸ hm]

lemma checkForcePause_fst (cfg : Config) (ap : Bool) :
    (checkForcePause cfg ap).1 = ap ∨ (checkForcePause cfg ap).1 = true := by
  unfold checkForcePause
  split_ifs <;> simp

lemma unPause_true : unPause true = (false, [GCode.M24]) := rfl

lemma unPause_false : unPause false = (false, []) := rfl

/-! Equations for the three branches of oneInterval. -/

lemma layerBranch_off (cfg : Config) (smp : Sample) (s : EngineState)
    (h : ¬ cfg.detect = Detect.layer) :
    layerBranch cfg smp s = (s, []) := by
  simp [layerBranch, h]

lemma layerBranch_same (cfg : Config) (smp : Sample) (s : EngineState)
    (h1 : cfg.detect = Detect.layer) (h2 : smp.z = s.zo) :
    layerBranch cfg smp s = ({ s with zo := smp.z }, []) := by
  simp [layerBranch, h1, h2]

lemma layerBranch_fires (cfg : Config) (smp : Sample) (s : EngineState)
    (h1 : cfg.detect = Detect.layer) (h2 : ¬ smp.z = s.zo) :
    layerBranch cfg smp s =
      ({ zo := smp.z, frame := s.frame + 1, timePriorPhoto := smp.now,
         alreadyPaused := (checkForcePause cfg s.alreadyPaused).1 },
       (checkForcePause cfg s.alreadyPaused).2.map Event.cmd ++
         [Event.capture (s.frame + 1) Reason.layer]) := by
  simp [layerBranch, h1, h2, onePhoto]

lemma intervalBranch_off (cfg : Config) (smp : Sample) (s : EngineState)
    (h : ¬ (cfg.seconds ≠ 0 ∧ cfg.seconds < smp.now - s.timePriorPhoto)) :
    intervalBranch cfg smp s = (s, []) := by
  simp only [intervalBranch, if_neg h]

lemma intervalBranch_fires (cfg : Config) (smp : Sample) (s : EngineState)
    (h : cfg.seconds ≠ 0 ∧ cfg.seconds < smp.now - s.timePriorPhoto) :
    intervalBranch cfg smp s =
      ({ s with
          frame := s.frame + 1, timePriorPhoto := smp.now,
          alreadyPaused := (checkForcePause cfg s.alreadyPaused).1 },
       (checkForcePause cfg s.alreadyPaused).2.map Event.cmd ++
         [Event.capture (s.frame + 1) Reason.interval]) := by
  simp only [intervalBranch, if_pos h, onePhoto]

lemma pauseBranch_off (cfg : Config) (smp : Sample) (s : EngineState)
    (h : ¬ (cfg.detect = Detect.pause ∧ smp.status.hasPaused = true)) :
    pauseBranch cfg smp s = (s, []) := by
  simp only [pauseBranch, if_neg h]

lemma pauseBranch_fires (cfg : Config) (smp : Sample) (s : EngineState)
    (h : cfg.detect = Detect.pause ∧ smp.status.hasPaused = true) :
    pauseBranch cfg smp s =
      ({ s with frame := s.frame + 1, timePriorPhoto := smp.now },
       [Event.capture (s.frame + 1) Reason.pauseDetected]) := by
  simp only [pauseBranch, if_pos h, onePhoto]

/-! Per-branch capture counts, frame bookkeeping and capture indices. -/

lemma countCaptures_layerBranch (cfg : Config) (smp : Sample) (s : EngineState) :
    countCaptures (layerBranch cfg smp s).2 =
      if cfg.detect = Detect.layer ∧ ¬ smp.z = s.zo then 1 else 0 := by
  by_cases h1 : cfg.detect = Detect.layer
  · by_cases h2 : smp.z = s.zo
    · rw [layerBranch_same cfg smp s h1 h2]
      simp [countCaptures, h1, h2]
    · rw [layerBranch_fires cfg smp s h1 h2, countCaptures_append, countCaptures_cmds]
      simp [countCaptures, Event.isCapture, h1, h2]
  · rw [layerBranch_off cfg smp s h1]
    simp [countCaptures, h1]

lemma countCaptures_intervalBranch (cfg : Config) (smp : Sample) (s : EngineState) :
    countCaptures (intervalBranch cfg smp s).2 =
      if cfg.seconds ≠ 0 ∧ cfg.seconds < smp.now - s.timePriorPhoto then 1 else 0 := by
  by_cases h : cfg.seconds ≠ 0 ∧ cfg.seconds < smp.now - s.timePriorPhoto
  · rw [intervalBranch_fires cfg smp s h, countCaptures_append, countCaptures_cmds]
    simp [countCaptures, Event.isCapture, h]
  · rw [intervalBranch_off cfg smp s h]
    simp [countCaptures, h]

lemma countCaptures_pauseBranch (cfg : Config) (smp : Sample) (s : EngineState) :
    countCaptures (pauseBranch cfg smp s).2 =
      if cfg.detect = Detect.pause ∧ smp.status.hasPaused = true then 1 else 0 := by
  by_cases h : cfg.detect = Detect.pause ∧ smp.status.hasPaused = true
  · rw [pauseBranch_fires cfg smp s h]
    simp [countCaptures, Event.isCapture, h]
  · rw [pauseBranch_off cfg smp s h]
    simp [countCaptures, h]

lemma frame_layerBranch (cfg : Config) (smp : Sample) (s : EngineState) :
    (layerBranch cfg smp s).1.frame =
      s.frame + countCaptures (layerBranch cfg smp s).2 := by
  rw [countCaptures_layerBranch]
  by_cases h1 : cfg.detect = Detect.layer
  · by_cases h2 : smp.z = s.zo
    · rw [layerBranch_same cfg smp s h1 h2]
      simp [h1, h2]
    · rw [layerBranch_fires cfg smp s h1 h2]
      simp [h1, h2]
  · rw [layerBranch_off cfg smp s h1]
    simp [h1]

lemma frame_intervalBranch (cfg : Config) (smp : Sample) (s : EngineState) :
    (intervalBranch cfg smp s).1.frame =
      s.frame + countCaptures (intervalBranch cfg smp s).2 := by
  rw [countCaptures_intervalBranch]
  by_cases h : cfg.seconds ≠ 0 ∧ cfg.seconds < smp.now - s.timePriorPhoto
  · rw [intervalBranch_fires cfg smp s h]
    simp [h]
  · rw [intervalBranch_off cfg smp s h]
    simp [h]

lemma frame_pauseBranch (cfg : Config) (smp : Sample) (s : EngineState) :
    (pauseBranch cfg smp s).1.frame =
      s.frame + countCaptures (pauseBranch cfg smp s).2 := by
  rw [countCaptures_pauseBranch]
  by_cases h : cfg.detect = Detect.pause ∧ smp.status.hasPaused = true
  · rw [pauseBranch_fires cfg smp s h]
    simp [h]
  · rw [pauseBranch_off cfg smp s h]
    simp [h]

lemma captureIndices_layerBranch (cfg : Config) (smp : Sample) (s : EngineState) :
    captureIndices (layerBranch cfg smp s).2 =
      List.range' (s.frame + 1) (countCaptures (layerBranch cfg smp s).2) := by
  rw [countCaptures_layerBranch]
  by_cases h1 : cfg.detect = Detect.layer
  · by_cases h2 : smp.z = s.zo
    · rw [layerBranch_same cfg smp s h1 h2]
      simp [captureIndices, h1, h2]
    · rw [layerBranch_fires cfg smp s h1 h2, captureIndices_append, captureIndices_cmds]
      simp [captureIndices, h1, h2, List.range']
  · rw [layerBranch_off cfg smp s h1]
    simp [captureIndices, h1]

lemma captureIndices_intervalBranch (cfg : Config) (smp : Sample) (s : EngineState) :
    captureIndices (intervalBranch cfg smp s).2 =
      List.range' (s.frame + 1) (countCaptures (intervalBranch cfg smp s).2) := by
  rw [countCaptures_intervalBranch]
  by_cases h : cfg.seconds ≠ 0 ∧ cfg.seconds < smp.now - s.timePriorPhoto
  · rw [intervalBranch_fires cfg smp s h, captureIndices_append, captureIndices_cmds]
    simp [captureIndices, h, List.range']
  · rw [intervalBranch_off cfg smp s h]
    simp [captureIndices, h]

lemma captureIndices_pauseBranch (cfg : Config) (smp : Sample) (s : EngineState) :
    captureIndices (pauseBranch cfg smp s).2 =
      List.range' (s.frame + 1) (countCaptures (pauseBranch cfg smp s).2) := by
  rw [countCaptures_pauseBranch]
  by_cases h : cfg.detect = Detect.pause ∧ smp.status.hasPaused = true
  · rw [pauseBranch_fires cfg smp s h]
    simp [captureIndices, h, List.range']
  · rw [pauseBranch_off cfg smp s h]
    simp [captureIndices, h]

/-! Shape of oneInterval in terms of its branches (definitional). -/

lemma oneInterval_events (cfg : Config) (smp : Sample) (s : EngineState) :
    (oneInterval cfg smp s).2 =
      (layerBranch cfg smp s).2 ++
        ((intervalBranch cfg smp (layerBranch cfg smp s).1).2 ++
          ((pauseBranch cfg smp (intervalBranch cfg smp (layerBranch cfg smp s).1).1).2 ++
            (unPause (pauseBranch cfg smp
              (intervalBranch cfg smp (layerBranch cfg smp s).1).1).1.alreadyPaused).2.map
                Event.cmd)) := by
  simp [oneInterval]

lemma oneInterval_state (cfg : Config) (smp : Sample) (s : EngineState) :
    (oneInterval cfg smp s).1 =
      { (pauseBranch cfg smp (intervalBranch cfg smp (layerBranch cfg smp s).1).1).1 with
          alreadyPaused :=
            (unPause (pauseBranch cfg smp
              (intervalBranch cfg smp (layerBranch cfg smp s).1).1).1.alreadyPaused).1 } := rfl

lemma unPause_fst (ap : Bool) : (unPause ap).1 = false := by
  cases ap <;> rfl

lemma unPause_no_capture (ap : Bool) (k : ℕ) (r : Reason) :
    Event.capture k r ∉ (unPause ap).2.map Event.cmd := by
  cases ap <;> simp [unPause]

/-! Which timePriorPhoto values a branch can leave behind. -/

lemma tpp_layerBranch (cfg : Config) (smp : Sample) (s : EngineState) :
    (layerBranch cfg smp s).1.timePriorPhoto = s.timePriorPhoto ∨
      (layerBranch cfg smp s).1.timePriorPhoto = smp.now := by
  by_cases h1 : cfg.detect = Detect.layer
  · by_cases h2 : smp.z = s.zo
    · rw [layerBranch_same cfg smp s h1 h2]; left; rfl
    · rw [layerBranch_fires cfg smp s h1 h2]; right; rfl
  · rw [layerBranch_off cfg smp s h1]; left; rfl

lemma tpp_intervalBranch (cfg : Config) (smp : Sample) (s : EngineState) :
    (intervalBranch cfg smp s).1.timePriorPhoto = s.timePriorPhoto ∨
      (intervalBranch cfg smp s).1.timePriorPhoto = smp.now := by
  by_cases h : cfg.seconds ≠ 0 ∧ cfg.seconds < smp.now - s.timePriorPhoto
  · rw [intervalBranch_fires cfg smp s h]; right; rfl
  · rw [intervalBranch_off cfg smp s h]; left; rfl

lemma tpp_pauseBranch (cfg : Config) (smp : Sample) (s : EngineState) :
    (pauseBranch cfg smp s).1.timePriorPhoto = s.timePriorPhoto ∨
      (pauseBranch cfg smp s).1.timePriorPhoto = smp.now := by
  by_cases h : cfg.detect = Detect.pause ∧ smp.status.hasPaused = true
  · rw [pauseBranch_fires cfg smp s h]; right; rfl
  · rw [pauseBranch_off cfg smp s h]; left; rfl

lemma tpp_layerBranch_of_events (cfg : Config) (smp : Sample) (s : EngineState)
    (h : (layerBranch cfg smp s).2 ≠ []) :
    (layerBranch cfg smp s).1.timePriorPhoto = smp.now := by
  by_cases h1 : cfg.detect = Detect.layer
  · by_cases h2 : smp.z = s.zo
    · rw [layerBranch_same cfg smp s h1 h2] at h; simp at h
    · rw [layerBranch_fires cfg smp s h1 h2]
  · rw [layerBranch_off cfg smp s h1] at h; simp at h

lemma tpp_intervalBranch_of_events (cfg : Config) (smp : Sample) (s : EngineState)
    (h : (intervalBranch cfg smp s).2 ≠ []) :
    (intervalBranch cfg smp s).1.timePriorPhoto = smp.now := by
  by_cases hc : cfg.seconds ≠ 0 ∧ cfg.seconds < smp.now - s.timePriorPhoto
  · rw [intervalBranch_fires cfg smp s hc]
  · rw [intervalBranch_off cfg smp s hc] at h; simp at h

lemma tpp_pauseBranch_of_events (cfg : Config) (smp : Sample) (s : EngineState)
    (h : (pauseBranch cfg smp s).2 ≠ []) :
    (pauseBranch cfg smp s).1.timePriorPhoto = smp.now := by
  by_cases hc : cfg.detect = Detect.pause ∧ smp.status.hasPaused = true
  · rw [pauseBranch_fires cfg smp s hc]
  · rw [pauseBranch_off cfg smp s hc] at h; simp at h

/-! Which reasons each branch can attach to a capture. -/

lemma capture_mem_layerBranch (cfg : Config) (smp : Sample) (s : EngineState)
    (k : ℕ) (r : Reason) (h : Event.capture k r ∈ (layerBranch cfg smp s).2) :
    r = Reason.layer := by
  by_cases h1 : cfg.detect = Detect.layer
  · by_cases h2 : smp.z = s.zo
    · rw [layerBranch_same cfg smp s h1 h2] at h; simp at h
    · rw [layerBranch_fires cfg smp s h1 h2] at h
      rcases List.mem_append.mp h with hc | hc
      · exact absurd hc (capture_notMem_cmds k r _)
      · simp at hc; exact hc.2
  · rw [layerBranch_off cfg smp s h1] at h; simp at h

lemma capture_mem_intervalBranch (cfg : Config) (smp : Sample) (s : EngineState)
    (k : ℕ) (r : Reason) (h : Event.capture k r ∈ (intervalBranch cfg smp s).2) :
    r = Reason.interval ∧ cfg.seconds ≠ 0 ∧ cfg.seconds < smp.now - s.timePriorPhoto := by
  by_cases hc : cfg.seconds ≠ 0 ∧ cfg.seconds < smp.now - s.timePriorPhoto
  · rw [intervalBranch_fires cfg smp s hc] at h
    rcases List.mem_append.mp h with hm | hm
    · exact absurd hm (capture_notMem_cmds k r _)
    · simp at hm; exact ⟨hm.2, hc⟩
  · rw [intervalBranch_off cfg smp s hc] at h; simp at h

lemma capture_mem_pauseBranch (cfg : Config) (smp : Sample) (s : EngineState)
    (k : ℕ) (r : Reason) (h : Event.capture k r ∈ (pauseBranch cfg smp s).2) :
    r = Reason.pauseDetected ∧ cfg.detect = Detect.pause ∧ smp.status.hasPaused = true := by
  by_cases hc : cfg.detect = Detect.pause ∧ smp.status.hasPaused = true
  · rw [pauseBranch_fires cfg smp s hc] at h
    simp at h; exact ⟨h.2, hc⟩
  · rw [pauseBranch_off cfg smp s hc] at h; simp at h

lemma intervalBranch_fires_mem (cfg : Config) (smp : Sample) (s : EngineState)
    (hc : cfg.seconds ≠ 0 ∧ cfg.seconds < smp.now - s.timePriorPhoto) :
    Event.capture (s.frame + 1) Reason.interval ∈ (intervalBranch cfg smp s).2 := by
  rw [intervalBranch_fires cfg smp s hc]
  simp

/-! zo bookkeeping. -/

lemma zo_layerBranch (cfg : Config) (smp : Sample) (s : EngineState) :
    (layerBranch cfg smp s).1.zo =
      if cfg.detect = Detect.layer then smp.z else s.zo := by
  by_cases h1 : cfg.detect = Detect.layer
  · by_cases h2 : smp.z = s.zo
    · rw [layerBranch_same cfg smp s h1 h2]; simp [h1]
    · rw [layerBranch_fires cfg smp s h1 h2]; simp [h1]
  · rw [layerBranch_off cfg smp s h1]; simp [h1]

lemma zo_intervalBranch (cfg : Config) (smp : Sample) (s : EngineState) :
    (intervalBranch cfg smp s).1.zo = s.zo := by
  by_cases h : cfg.seconds ≠ 0 ∧ cfg.seconds < smp.now - s.timePriorPhoto
  · rw [intervalBranch_fires cfg smp s h]
  · rw [intervalBranch_off cfg smp s h]

lemma zo_pauseBranch (cfg : Config) (smp : Sample) (s : EngineState) :
    (pauseBranch cfg smp s).1.zo = s.zo := by
  by_cases h : cfg.detect = Detect.pause ∧ smp.status.hasPaused = true
  · rw [pauseBranch_fires cfg smp s h]
  · rw [pauseBranch_off cfg smp s h]

lemma oneInterval_zo (cfg : Config) (smp : Sample) (s : EngineState) :
    (oneInterval cfg smp s).1.zo =
      if cfg.detect = Detect.layer then smp.z else s.zo := by
  rw [oneInterval_state]
  show (pauseBranch cfg smp (intervalBranch cfg smp (layerBranch cfg smp s).1).1).1.zo = _
  rw [zo_pauseBranch, zo_intervalBranch, zo_layerBranch]

/-! Composed facts about a whole oneInterval tick. -/

lemma range'_concat (s m n : ℕ) :
    List.range' s m ++ List.range' (s + m) n = List.range' s (m + n) := by
  have h := List.range'_append s m n 1
  simpa [Nat.one_mul, Nat.add_comm] using h

lemma range'_triple (a c1 c2 c3 : ℕ) :
    List.range' (a + 1) c1 ++ (List.range' (a + c1 + 1) c2 ++ List.range' (a + c1 + c2 + 1) c3) =
      List.range' (a + 1) (c1 + c2 + c3) := by
  rw [show a + c1 + c2 + 1 = (a + c1 + 1) + c2 by omega, range'_concat,
      show a + c1 + 1 = (a + 1) + c1 by omega, range'_concat]
  rw [Nat.add_assoc]

lemma countCaptures_oneInterval (cfg : Config) (smp : Sample) (s : EngineState) :
    countCaptures (oneInterval cfg smp s).2 =
      countCaptures (layerBranch cfg smp s).2 +
        countCaptures (intervalBranch cfg smp (layerBranch cfg smp s).1).2 +
        countCaptures (pauseBranch cfg smp
          (intervalBranch cfg smp (layerBranch cfg smp s).1).1).2 := by
  rw [oneInterval_events, countCaptures_append, countCaptures_append, countCaptures_append,
      countCaptures_cmds]
  omega

lemma oneInterval_frame (cfg : Config) (smp : Sample) (s : EngineState) :
    (oneInterval cfg smp s).1.frame = s.frame + countCaptures (oneInterval cfg smp s).2 := by
  rw [countCaptures_oneInterval, oneInterval_state]
  show (pauseBranch cfg smp (intervalBranch cfg smp (layerBranch cfg smp s).1).1).1.frame = _
  rw [frame_pauseBranch, frame_intervalBranch, frame_layerBranch]
  omega

lemma oneInterval_captureIndices (cfg : Config) (smp : Sample) (s : EngineState) :
    captureIndices (oneInterval cfg smp s).2 =
      List.range' (s.frame + 1) (countCaptures (oneInterval cfg smp s).2) := by
  rw [countCaptures_oneInterval, oneInterval_events, captureIndices_append,
      captureIndices_append, captureIndices_append, captureIndices_cmds,
      captureIndices_layerBranch, captureIndices_intervalBranch, captureIndices_pauseBranch,
      frame_intervalBranch, frame_layerBranch]
  rw [List.append_nil]
  exact range'_triple s.frame _ _ _

lemma countReason_pd_layerBranch (cfg : Config) (smp : Sample) (s : EngineState) :
    countReason Reason.pauseDetected (layerBranch cfg smp s).2 = 0 := by
  by_cases h1 : cfg.detect = Detect.layer
  · by_cases h2 : smp.z = s.zo
    · rw [layerBranch_same cfg smp s h1 h2]; rfl
    · rw [layerBranch_fires cfg smp s h1 h2, countReason_append, countReason_cmds,
          countReason_single]
      simp
  · rw [layerBranch_off cfg smp s h1]; rfl

lemma countReason_pd_intervalBranch (cfg : Config) (smp : Sample) (s : EngineState) :
    countReason Reason.pauseDetected (intervalBranch cfg smp s).2 = 0 := by
  by_cases h : cfg.seconds ≠ 0 ∧ cfg.seconds < smp.now - s.timePriorPhoto
  · rw [intervalBranch_fires cfg smp s h, countReason_append, countReason_cmds,
        countReason_single]
    simp
  · rw [intervalBranch_off cfg smp s h]; rfl

lemma countReason_pd_pauseBranch (cfg : Config) (smp : Sample) (s : EngineState) :
    countReason Reason.pauseDetected (pauseBranch cfg smp s).2 =
      if cfg.detect = Detect.pause ∧ smp.status.hasPaused = true then 1 else 0 := by
  by_cases h : cfg.detect = Detect.pause ∧ smp.status.hasPaused = true
  · rw [pauseBranch_fires cfg smp s h, countReason_single]
    simp [h]
  · rw [pauseBranch_off cfg smp s h]
    simp [h, countReason]

lemma countReason_pd_unPause (ap : Bool) :
    countReason Reason.pauseDetected ((unPause ap).2.map Event.cmd) = 0 :=
  countReason_cmds _ _

lemma countReason_pd_oneInterval (cfg : Config) (smp : Sample) (s : EngineState) :
    countReason Reason.pauseDetected (oneInterval cfg smp s).2 =
      if cfg.detect = Detect.pause ∧ smp.status.hasPaused = true then 1 else 0 := by
  rw [oneInterval_events, countReason_append, countReason_append, countReason_append,
      countReason_pd_layerBranch, countReason_pd_intervalBranch, countReason_pd_pauseBranch,
      countReason_pd_unPause]
  omega

/-! timePriorPhoto across a whole tick. -/

lemma oneInterval_tpp_cases (cfg : Config) (smp : Sample) (s : EngineState) :
    (oneInterval cfg smp s).1.timePriorPhoto = s.timePriorPhoto ∨
      (oneInterval cfg smp s).1.timePriorPhoto = smp.now := by
  rw [oneInterval_state]
  show (pauseBranch cfg smp
      (intervalBranch cfg smp (layerBranch cfg smp s).1).1).1.timePriorPhoto = _ ∨ _
  rcases tpp_pauseBranch cfg smp (intervalBranch cfg smp (layerBranch cfg smp s).1).1
      with h3 | h3
  · rw [h3]
    rcases tpp_intervalBranch cfg smp (layerBranch cfg smp s).1 with h2 | h2
    · rw [h2]
      exact tpp_layerBranch cfg smp s
    · right; exact h2
  · right; exact h3

lemma oneInterval_tpp_of_capture (cfg : Config) (smp : Sample) (s : EngineState)
    (k : ℕ) (r : Reason) (h : Event.capture k r ∈ (oneInterval cfg smp s).2) :
    (oneInterval cfg smp s).1.timePriorPhoto = smp.now := by
  rw [oneInterval_events] at h
  rw [oneInterval_state]
  show (pauseBranch cfg smp
      (intervalBranch cfg smp (layerBranch cfg smp s).1).1).1.timePriorPhoto = smp.now
  rcases List.mem_append.mp h with h1 | h
  · have e1 : (layerBranch cfg smp s).1.timePriorPhoto = smp.now :=
      tpp_layerBranch_of_events cfg smp s (List.ne_nil_of_mem h1)
    have e2 : (intervalBranch cfg smp (layerBranch cfg smp s).1).1.timePriorPhoto = smp.now := by
      rcases tpp_intervalBranch cfg smp (layerBranch cfg smp s).1 with h2 | h2
      · rw [h2, e1]
      · exact h2
    rcases tpp_pauseBranch cfg smp (intervalBranch cfg smp (layerBranch cfg smp s).1).1
        with h3 | h3
    · rw [h3, e2]
    · exact h3
  rcases List.mem_append.mp h with h2 | h
  · have e2 : (intervalBranch cfg smp (layerBranch cfg smp s).1).1.timePriorPhoto = smp.now :=
      tpp_intervalBranch_of_events cfg smp (layerBranch cfg smp s).1 (List.ne_nil_of_mem h2)
    rcases tpp_pauseBranch cfg smp (intervalBranch cfg smp (layerBranch cfg smp s).1).1
        with h3 | h3
    · rw [h3, e2]
    · exact h3
  rcases List.mem_append.mp h with h3 | h4
  · exact tpp_pauseBranch_of_events cfg smp
      (intervalBranch cfg smp (layerBranch cfg smp s).1).1 (List.ne_nil_of_mem h3)
  · exact absurd h4 (unPause_no_capture _ k r)

lemma tpp_lb_oneInterval (cfg : Config) (smp : Sample) (s : EngineState) (T : ℚ)
    (h1 : T ≤ s.timePriorPhoto) (h2 : T ≤ smp.now) :
    T ≤ (oneInterval cfg smp s).1.timePriorPhoto := by
  rcases oneInterval_tpp_cases cfg smp s with h | h <;> rw [h] <;> assumption

/-! The interval-reason captures of a tick characterise the seconds trigger. -/

lemma interval_capture_oneInterval (cfg : Config) (smp : Sample) (s : EngineState)
    (k : ℕ) (h : Event.capture k Reason.interval ∈ (oneInterval cfg smp s).2) :
    cfg.seconds ≠ 0 ∧
      cfg.seconds < smp.now - (layerBranch cfg smp s).1.timePriorPhoto := by
  rw [oneInterval_events] at h
  rcases List.mem_append.mp h with h1 | h
  · exact absurd (capture_mem_layerBranch cfg smp s k _ h1) (by decide)
  rcases List.mem_append.mp h with h2 | h
  · exact (capture_mem_intervalBranch cfg smp (layerBranch cfg smp s).1 k _ h2).2
  rcases List.mem_append.mp h with h3 | h4
  · exact absurd (capture_mem_pauseBranch cfg smp
      (intervalBranch cfg smp (layerBranch cfg smp s).1).1 k _ h3).1 (by decide)
  · exact absurd h4 (unPause_no_capture _ k _)

lemma interval_capture_oneInterval_mem (cfg : Config) (smp : Sample) (s : EngineState)
    (hc : cfg.seconds ≠ 0 ∧
      cfg.seconds < smp.now - (layerBranch cfg smp s).1.timePriorPhoto) :
    Event.capture ((layerBranch cfg smp s).1.frame + 1) Reason.interval ∈
      (oneInterval cfg smp s).2 := by
  rw [oneInterval_events]
  exact List.mem_append.mpr (Or.inr (List.mem_append.mpr
    (Or.inl (intervalBranch_fires_mem cfg smp (layerBranch cfg smp s).1 hc))))

/-! alreadyPaused and commands when -pause yes is not in force. -/

lemma ap_layerBranch_noPause (cfg : Config) (smp : Sample) (s : EngineState)
    (hp : ¬ cfg.pause = PauseMode.yes) :
    (layerBranch cfg smp s).1.alreadyPaused = s.alreadyPaused ∧
      ∀ g, Event.cmd g ∉ (layerBranch cfg smp s).2 := by
  by_cases h1 : cfg.detect = Detect.layer
  · by_cases h2 : smp.z = s.zo
    · rw [layerBranch_same cfg smp s h1 h2]; simp
    · rw [layerBranch_fires cfg smp s h1 h2, checkForcePause_noPause cfg _ hp]
      simp
  · rw [layerBranch_off cfg smp s h1]; simp

lemma ap_intervalBranch_noPause (cfg : Config) (smp : Sample) (s : EngineState)
    (hp : ¬ cfg.pause = PauseMode.yes) :
    (intervalBranch cfg smp s).1.alreadyPaused = s.alreadyPaused ∧
      ∀ g, Event.cmd g ∉ (intervalBranch cfg smp s).2 := by
  by_cases h : cfg.seconds ≠ 0 ∧ cfg.seconds < smp.now - s.timePriorPhoto
  · rw [intervalBranch_fires cfg smp s h, checkForcePause_noPause cfg _ hp]
    simp
  · rw [intervalBranch_off cfg smp s h]; simp

lemma ap_pauseBranch (cfg : Config) (smp : Sample) (s : EngineState) :
    (pauseBranch cfg smp s).1.alreadyPaused = s.alreadyPaused ∧
      ∀ g, Event.cmd g ∉ (pauseBranch cfg smp s).2 := by
  by_cases h : cfg.detect = Detect.pause ∧ smp.status.hasPaused = true
  · rw [pauseBranch_fires cfg smp s h]; simp
  · rw [pauseBranch_off cfg smp s h]; simp

lemma oneInterval_ap_false (cfg : Config) (smp : Sample) (s : EngineState) :
    (oneInterval cfg smp s).1.alreadyPaused = false := by
  rw [oneInterval_state]
  exact unPause_fst _

lemma oneInterval_noPause_noCmd (cfg : Config) (smp : Sample) (s : EngineState)
    (hp : ¬ cfg.pause = PauseMode.yes) (hs : s.alreadyPaused = false) :
    ∀ g, Event.cmd g ∉ (oneInterval cfg smp s).2 := by
  have hl := ap_layerBranch_noPause cfg smp s hp
  have hi := ap_intervalBranch_noPause cfg smp (layerBranch cfg smp s).1 hp
  have hpz := ap_pauseBranch cfg smp (intervalBranch cfg smp (layerBranch cfg smp s).1).1
  have hap3 : (pauseBranch cfg smp
      (intervalBranch cfg smp (layerBranch cfg smp s).1).1).1.alreadyPaused = false := by
    rw [hpz.1, hi.1, hl.1, hs]
  intro g hg
  rw [oneInterval_events] at hg
  rcases List.mem_append.mp hg with h1 | hg
  · exact hl.2 g h1
  rcases List.mem_append.mp hg with h2 | hg
  · exact hi.2 g h2
  rcases List.mem_append.mp hg with h3 | h4
  · exact hpz.2 g h3
  · rw [hap3, unPause_false] at h4
    simp at h4

/-! Run-level lemmas. -/

lemma engineFinal_append (cfg : Config) (s : EngineState) (l1 l2 : List Sample) :
    engineFinal cfg s (l1 ++ l2) = engineFinal cfg (engineFinal cfg s l1) l2 := by
  induction l1 generalizing s with
  | nil => rfl
  | cons smp rest ih => simp only [List.cons_append, engineFinal]; exact ih _

lemma tpp_lb_engineFinal (cfg : Config) (T : ℚ) :
    ∀ (l : List Sample) (s : EngineState), T ≤ s.timePriorPhoto →
      (∀ smp ∈ l, T ≤ smp.now) → T ≤ (engineFinal cfg s l).timePriorPhoto := by
  intro l
  induction l with
  | nil => intro s h1 _; exact h1
  | cons smp rest ih =>
      intro s h1 h2
      simp only [engineFinal]
      exact ih _ (tpp_lb_oneInterval cfg smp s T h1 (h2 smp (by simp)))
        (fun x hx => h2 x (by simp [hx]))

lemma countReason_pd_runEngine (cfg : Config) (hd : cfg.detect = Detect.pause) :
    ∀ (samples : List Sample) (s : EngineState),
      countReason Reason.pauseDetected (runEngine cfg s samples).flatten =
        (samples.filter fun smp => smp.status.hasPaused).length := by
  intro samples
  induction samples with
  | nil => intro s; rfl
  | cons smp rest ih =>
      intro s
      simp only [runEngine, List.flatten_cons, countReason_append,
        countReason_pd_oneInterval, ih, hd, List.filter_cons]
      by_cases hpz : smp.status.hasPaused = true
      · simp [hpz, Nat.add_comm]
      · simp [hpz]

lemma frame_indices_runEngine (cfg : Config) :
    ∀ (samples : List Sample) (s : EngineState),
      (engineFinal cfg s samples).frame =
        s.frame + countCaptures (runEngine cfg s samples).flatten ∧
      captureIndices (runEngine cfg s samples).flatten =
        List.range' (s.frame + 1) (countCaptures (runEngine cfg s samples).flatten) := by
  intro samples
  induction samples with
  | nil => intro s; exact ⟨rfl, rfl⟩
  | cons smp rest ih =>
      intro s
      have h1 := oneInterval_frame cfg smp s
      have h2 := oneInterval_captureIndices cfg smp s
      have hr := ih (oneInterval cfg smp s).1
      constructor
      · simp only [engineFinal, runEngine, List.flatten_cons, countCaptures_append]
        rw [hr.1, h1]
        omega
      · simp only [runEngine, List.flatten_cons, captureIndices_append, countCaptures_append]
        rw [h2, hr.2, h1]
        rw [show s.frame + countCaptures (oneInterval cfg smp s).2 + 1 =
              (s.frame + 1) + countCaptures (oneInterval cfg smp s).2 by omega]
        exact range'_concat _ _ _

lemma countCaptures_runEngine_layer (cfg : Config) (hd : cfg.detect = Detect.layer)
    (h0 : cfg.seconds = 0) :
    ∀ (samples : List Sample) (s : EngineState),
      countCaptures (runEngine cfg s samples).flatten =
        layerChangeCount s.zo (samples.map Sample.z) := by
  intro samples
  induction samples with
  | nil => intro s; rfl
  | cons smp rest ih =>
      intro s
      simp only [runEngine, List.flatten_cons, countCaptures_append, List.map_cons,
        layerChangeCount]
      rw [ih, oneInterval_zo, if_pos hd]
      rw [countCaptures_oneInterval, countCaptures_layerBranch, countCaptures_intervalBranch,
        countCaptures_pauseBranch]
      have hns : ¬ (cfg.seconds ≠ 0 ∧
          cfg.seconds < smp.now - (layerBranch cfg smp s).1.timePriorPhoto) := by
        rintro ⟨h, _⟩; exact h h0
      have hnp : ¬ (cfg.detect = Detect.pause ∧ smp.status.hasPaused = true) := by
        rintro ⟨h, _⟩
        rw [hd] at h
        exact absurd h (by decide)
      rw [if_neg hns, if_neg hnp]
      by_cases hz : smp.z = s.zo
      · simp [hd, hz]
      · simp [hd, hz]

/-! Lemmas on the main loop. -/

lemma run_assemble_terminal (cfg : Config) :
    ∀ (samples : List Sample) (st : ℕ) (es : EngineState) (n : ℕ),
      MainEvent.assembleVideo n ∈ run cfg st es samples →
      ∃ l, run cfg st es samples = l ++ [MainEvent.assembleVideo n] ∧
        ∀ m, MainEvent.assembleVideo m ∉ l := by
  intro samples
  induction samples with
  | nil =>
      intro st es n h
      simp [run] at h
  | cons smp rest ih =>
      intro st es n h
      rcases st with _ | _ | _ | st
      · simp only [run] at h ⊢
        by_cases hc : (smp.status.hasProcessing || smp.status.hasM) = true
        · rw [if_pos hc] at h ⊢
          exact ih 1 es n h
        · rw [if_neg hc] at h ⊢
          exact ih 0 es n h
      · simp only [run] at h ⊢
        rcases List.mem_append.mp h with hm | hm
        · simp at hm
        · rcases ih _ _ n hm with ⟨l, heq, hnot⟩
          refine ⟨(oneInterval cfg smp es).2.map MainEvent.engine ++ l, ?_, ?_⟩
          · rw [heq, List.append_assoc]
          · intro m hm2
            rcases List.mem_append.mp hm2 with hm3 | hm3
            · simp at hm3
            · exact hnot m hm3
      · simp only [run] at h ⊢
        simp at h
        refine ⟨[], ?_, by simp⟩
        simp [h]
      · simp only [run] at h ⊢
        exact ih _ _ n h

lemma run_assemble_state1 (cfg : Config) :
    ∀ (samples : List Sample) (es : EngineState) (n : ℕ),
      MainEvent.assembleVideo n ∈ run cfg 1 es samples →
      ∃ l2 s2 l3, samples = l2 ++ s2 :: l3 ∧ s2.status.hasIdle = true := by
  intro samples
  induction samples with
  | nil =>
      intro es n h
      simp [run] at h
  | cons smp rest ih =>
      intro es n h
      simp only [run] at h
      rcases List.mem_append.mp h with hm | hm
      · simp at hm
      · by_cases hi : smp.status.hasIdle = true
        · exact ⟨[], smp, rest, by simp, hi⟩
        · rw [if_neg (by simpa using hi)] at hm
          rcases ih _ n hm with ⟨l2, s2, l3, heq, hid⟩
          exact ⟨smp :: l2, s2, l3, by simp [heq], hid⟩

lemma run_assemble_state0 (cfg : Config) :
    ∀ (samples : List Sample) (es : EngineState) (n : ℕ),
      MainEvent.assembleVideo n ∈ run cfg 0 es samples →
      ∃ l1 s1 l2 s2 l3, samples = l1 ++ s1 :: (l2 ++ s2 :: l3) ∧
        (s1.status.hasProcessing = true ∨ s1.status.hasM = true) ∧
        s2.status.hasIdle = true := by
  intro samples
  induction samples with
  | nil =>
      intro es n h
      simp [run] at h
  | cons smp rest ih =>
      intro es n h
      simp only [run] at h
      by_cases hc : (smp.status.hasProcessing || smp.status.hasM) = true
      · rw [if_pos hc] at h
        rcases run_assemble_state1 cfg rest es n h with ⟨l2, s2, l3, heq, hid⟩
        exact ⟨[], smp, l2, s2, l3, by simp [heq], by simpa [Bool.or_eq_true] using hc, hid⟩
      · rw [if_neg hc] at h
        rcases ih es n h with ⟨l1, s1, l2, s2, l3, heq, hp, hid⟩
        exact ⟨smp :: l1, s1, l2, s2, l3, by simp [heq], hp, hid⟩

lemma dlsr_check_false : ∀ c : Camera, ¬ (['d', 'l', 's', 'r'] <:+: cameraChars c) := by
  intro c
  cases c <;> decide

lemma engineFinal_ap_false (cfg : Config) :
    ∀ (samples : List Sample) (s : EngineState), s.alreadyPaused = false →
      (engineFinal cfg s samples).alreadyPaused = false := by
  intro samples
  induction samples with
  | nil => intro s hs; exact hs
  | cons smp rest ih =>
      intro s hs
      simp only [engineFinal]
      exact ih _ (oneInterval_ap_false cfg smp s)

lemma runEngine_no_cmd (cfg : Config) (hp : ¬ cfg.pause = PauseMode.yes) :
    ∀ (samples : List Sample) (s : EngineState), s.alreadyPaused = false →
      ∀ g, Event.cmd g ∉ (runEngine cfg s samples).flatten := by
  intro samples
  induction samples with
  | nil => intro s hs g h; simp [runEngine] at h
  | cons smp rest ih =>
      intro s hs g h
      simp only [runEngine, List.flatten_cons, List.mem_append] at h
      rcases h with h | h
      · exact oneInterval_noPause_noCmd cfg smp s hp hs g h
      · exact ih _ (oneInterval_ap_false cfg smp s) g h

/-! The claims. -/

/-- Claim C1, counterexample: with -detect layer, feeding the Z samples 0.2,
0.2, 0.4 to the Printing state from the initial globals produces two captures
(frames 1 and 2, fired on the first and third samples), not the single
capture with frame index 1 on the third sample that the claim states: the
global zo starts at 0, so the first sample with Z = 0.2 already differs from
it and fires. -/
theorem c1_scenarioA_counterexample :
    runEngine cfgLayer engineInit scenarioA =
      [[Event.capture 1 Reason.layer], [], [Event.capture 2 Reason.layer]] ∧
    ¬ countCaptures (runEngine cfgLayer engineInit scenarioA).flatten = 1 := by
  have h : runEngine cfgLayer engineInit scenarioA =
      [[Event.capture 1 Reason.layer], [], [Event.capture 2 Reason.layer]] := by
    norm_num [runEngine, oneInterval, layerBranch, intervalBranch, pauseBranch,
      unPause, checkForcePause, onePhoto, scenarioA, mkSample, cfgLayer, statusQuiet,
      engineInit, pause_no_ne_yes, det_layer_ne_pause]
  refine ⟨h, ?_⟩
  rw [h]
  decide

/-- Claim C1, amended: while Printing with -detect layer (and the seconds
trigger off), a capture fires exactly once per sample whose Z differs from
the detector state zo, which holds the previous sample Z, except at the first
sample where zo is the initial value 0 (not an unset sentinel); hence for the
sample sequence Z = 0.2, 0.2, 0.4 from the initial state exactly two captures
occur, with frame indices 1 and 2, fired on the first and third samples. -/
theorem c1_layer_trigger_amended :
    (∀ (z0 : ℚ) (samples : List Sample),
      countCaptures (runEngine cfgLayer
          { zo := z0, frame := 0, timePriorPhoto := 0, alreadyPaused := false }
          samples).flatten =
        layerChangeCount z0 (samples.map Sample.z)) ∧
    runEngine cfgLayer engineInit scenarioA =
      [[Event.capture 1 Reason.layer], [], [Event.capture 2 Reason.layer]] := by
  constructor
  · intro z0 samples
    exact countCaptures_runEngine_layer cfgLayer rfl rfl samples _
  · norm_num [runEngine, oneInterval, layerBranch, intervalBranch, pauseBranch,
      unPause, checkForcePause, onePhoto, scenarioA, mkSample, cfgLayer, statusQuiet,
      engineInit, pause_no_ne_yes, det_layer_ne_pause]

/-- Claim C2, counterexample: with -detect layer and -seconds 30, a Printing
tick at time 100 whose Z changed (0.4 against zo = 0.2) and whose interval
had elapsed at the start of the tick (100 - 0 > 30) produces exactly one
capture, not two, and the frame counter rises by 1, not 2: the layer capture
sets timePriorPhoto to the tick time, so the elapsed-seconds test evaluated
just after it within the same tick sees no elapsed time. -/
theorem c2_layer_interval_counterexample :
    let cfg : Config :=
      { seconds := 30, detect := Detect.layer, pause := PauseMode.no, movehead := (0, 0) }
    let s : EngineState :=
      { zo := 0.2, frame := 0, timePriorPhoto := 0, alreadyPaused := false }
    let smp : Sample := { x := 0, y := 0, z := 0.4, status := statusQuiet, now := 100 }
    ¬ smp.z = s.zo ∧ cfg.seconds < smp.now - s.timePriorPhoto ∧
      (oneInterval cfg smp s).2 = [Event.capture 1 Reason.layer] ∧
      ¬ (oneInterval cfg smp s).1.frame = 0 + 2 := by
  refine ⟨by norm_num, by norm_num, ?_, ?_⟩
  · norm_num [oneInterval, layerBranch, intervalBranch, pauseBranch, unPause,
      checkForcePause, onePhoto, statusQuiet, pause_no_ne_yes, det_layer_ne_pause]
  · norm_num [oneInterval, layerBranch, intervalBranch, pauseBranch, unPause,
      checkForcePause, onePhoto, statusQuiet, pause_no_ne_yes, det_layer_ne_pause]

/-- Claim C2, amended: the three triggers are evaluated in sequence within a
tick and each firing one causes its own capture, but the seconds trigger
reads timePriorPhoto as already reset by a layer capture of the same tick:
with -detect layer and seconds positive, a tick whose Z changed produces
exactly one capture however long the interval had been, while a tick can
still produce two captures, e.g. -detect pause with -seconds 30 on a paused
sample with elapsed interval yields an interval capture and a pause capture
and the frame counter rises by 2. -/
theorem c2_trigger_fanout_amended :
    (∀ (cfg : Config) (smp : Sample) (s : EngineState),
      cfg.detect = Detect.layer → 0 < cfg.seconds → ¬ smp.z = s.zo →
      countCaptures (oneInterval cfg smp s).2 = 1 ∧
        (oneInterval cfg smp s).1.frame = s.frame + 1) ∧
    (let cfg : Config :=
      { seconds := 30, detect := Detect.pause, pause := PauseMode.no, movehead := (0, 0) }
     let s : EngineState :=
      { zo := 0, frame := 0, timePriorPhoto := 0, alreadyPaused := false }
     let smp : Sample := { x := 0, y := 0, z := 0, status := statusPaused, now := 100 }
     (oneInterval cfg smp s).2 =
        [Event.capture 1 Reason.interval, Event.capture 2 Reason.pauseDetected] ∧
       (oneInterval cfg smp s).1.frame = 2) := by
  constructor
  · intro cfg smp s hd hsec hz
    have hcc : countCaptures (oneInterval cfg smp s).2 = 1 := by
      rw [countCaptures_oneInterval, countCaptures_layerBranch, countCaptures_intervalBranch,
        countCaptures_pauseBranch]
      have htpp : (layerBranch cfg smp s).1.timePriorPhoto = smp.now := by
        apply tpp_layerBranch_of_events
        rw [layerBranch_fires cfg smp s hd hz]
        simp
      have hns : ¬ (cfg.seconds ≠ 0 ∧
          cfg.seconds < smp.now - (layerBranch cfg smp s).1.timePriorPhoto) := by
        rintro ⟨-, hlt⟩
        rw [htpp] at hlt
        simp only [sub_self] at hlt
        exact absurd hlt (not_lt.mpr (le_of_lt hsec))
      have hnp : ¬ (cfg.detect = Detect.pause ∧ smp.status.hasPaused = true) := by
        rintro ⟨h, -⟩
        rw [hd] at h
        exact absurd h (by decide)
      rw [if_pos ⟨hd, hz⟩, if_neg hns, if_neg hnp]
    exact ⟨hcc, by rw [oneInterval_frame, hcc]⟩
  · refine ⟨?_, ?_⟩
    · norm_num [oneInterval, layerBranch, intervalBranch, pauseBranch, unPause,
        checkForcePause, onePhoto, statusPaused, pause_no_ne_yes, det_pause_ne_layer]
    · norm_num [oneInterval, layerBranch, intervalBranch, pauseBranch, unPause,
        checkForcePause, onePhoto, statusPaused, pause_no_ne_yes, det_pause_ne_layer]

/-- Witness for the amended C2 theorem at the concrete counterexample input:
it has exactly one capture and its frame counter ends at 1. -/
theorem c2_trigger_fanout_amended_witness :
    countCaptures (oneInterval
      { seconds := 30, detect := Detect.layer, pause := PauseMode.no, movehead := (0, 0) }
      { x := 0, y := 0, z := 0.4, status := statusQuiet, now := 100 }
      { zo := 0.2, frame := 0, timePriorPhoto := 0, alreadyPaused := false }).2 = 1 ∧
    (oneInterval
      { seconds := 30, detect := Detect.layer, pause := PauseMode.no, movehead := (0, 0) }
      { x := 0, y := 0, z := 0.4, status := statusQuiet, now := 100 }
      { zo := 0.2, frame := 0, timePriorPhoto := 0, alreadyPaused := false }).1.frame =
      0 + 1 :=
  c2_trigger_fanout_amended.1 _ _ _ rfl (by norm_num) (by norm_num)

/-- Claim C3: with -pause yes, calling checkForcePause twice with no
intervening unPause engages the physical pause once: the first call returns
the flag set and the M25 pause sequence (with the head move when movehead is
set), the second call is a no-op returning no commands, and M25 appears
exactly once across both calls. -/
theorem c3_checkForcePause_idempotent (cfg : Config) (hp : cfg.pause = PauseMode.yes) :
    (checkForcePause cfg false).1 = true ∧
    checkForcePause cfg (checkForcePause cfg false).1 = (true, []) ∧
    ((checkForcePause cfg false).2 ++
        (checkForcePause cfg (checkForcePause cfg false).1).2).count GCode.M25 = 1 := by
  have h1 := checkForcePause_fires cfg hp
  have hfst : (checkForcePause cfg false).1 = true := by rw [h1]
  refine ⟨hfst, ?_, ?_⟩
  · rw [hfst]
    exact checkForcePause_already cfg
  · rw [hfst, checkForcePause_already cfg, h1]
    by_cases hm : cfg.movehead = ((0 : ℚ), (0 : ℚ))
    · rw [if_neg (by simpa using hm)]
      rfl
    · rw [if_pos (by simpa using hm)]
      rfl

/-- Witness for C3 at -pause yes with -movehead 10 10: the pause sequence of
the first call contains M25 once and the second call is a no-op. -/
theorem c3_checkForcePause_idempotent_witness :
    let cfg : Config :=
      { seconds := 0, detect := Detect.layer, pause := PauseMode.yes, movehead := (10, 10) }
    (checkForcePause cfg false).1 = true ∧
    checkForcePause cfg (checkForcePause cfg false).1 = (true, []) ∧
    ((checkForcePause cfg false).2 ++
        (checkForcePause cfg (checkForcePause cfg false).1).2).count GCode.M25 = 1 :=
  c3_checkForcePause_idempotent _ rfl

/-- Claim C4: under the RunConfiguration invariant intervalSeconds at least 0,
the seconds trigger of a tick fires iff intervalSeconds is positive and the
tick time minus timePriorPhoto (as the layer branch of the same tick left it)
strictly exceeds intervalSeconds; any capture of a tick, whatever its
trigger, leaves timePriorPhoto equal to the tick time; consequently, in a run
with nondecreasing tick times, the gap between a capture at one tick and an
interval-attributed capture at any later tick strictly exceeds
intervalSeconds. -/
theorem c4_interval_trigger_and_gap :
    (∀ (cfg : Config) (smp : Sample) (s : EngineState), 0 ≤ cfg.seconds →
      ((∃ k, Event.capture k Reason.interval ∈ (oneInterval cfg smp s).2) ↔
        (0 < cfg.seconds ∧
          cfg.seconds < smp.now - (layerBranch cfg smp s).1.timePriorPhoto))) ∧
    (∀ (cfg : Config) (smp : Sample) (s : EngineState) (k : ℕ) (r : Reason),
      Event.capture k r ∈ (oneInterval cfg smp s).2 →
      (oneInterval cfg smp s).1.timePriorPhoto = smp.now) ∧
    (∀ (cfg : Config) (s : EngineState) (l1 l2 : List Sample) (si sj : Sample),
      0 ≤ cfg.seconds →
      (∀ smp ∈ l2, si.now ≤ smp.now) → si.now ≤ sj.now →
      (∃ k r, Event.capture k r ∈ (oneInterval cfg si (engineFinal cfg s l1)).2) →
      (∃ k, Event.capture k Reason.interval ∈
        (oneInterval cfg sj (engineFinal cfg s (l1 ++ si :: l2))).2) →
      cfg.seconds < sj.now - si.now) := by
  refine ⟨?_, ?_, ?_⟩
  · intro cfg smp s h0
    constructor
    · rintro ⟨k, hk⟩
      have h := interval_capture_oneInterval cfg smp s k hk
      exact ⟨lt_of_le_of_ne h0 (Ne.symm h.1), h.2⟩
    · rintro ⟨hpos, hlt⟩
      exact ⟨_, interval_capture_oneInterval_mem cfg smp s ⟨ne_of_gt hpos, hlt⟩⟩
  · intro cfg smp s k r h
    exact oneInterval_tpp_of_capture cfg smp s k r h
  · rintro cfg s l1 l2 si sj h0 hmono hij ⟨k, r, hcap⟩ ⟨k2, hint⟩
    have hA : (oneInterval cfg si (engineFinal cfg s l1)).1.timePriorPhoto = si.now :=
      oneInterval_tpp_of_capture cfg si _ k r hcap
    have hsplit : engineFinal cfg s (l1 ++ si :: l2) =
        engineFinal cfg (oneInterval cfg si (engineFinal cfg s l1)).1 l2 := by
      rw [engineFinal_append]
      rfl
    have hlb : si.now ≤ (engineFinal cfg s (l1 ++ si :: l2)).timePriorPhoto := by
      rw [hsplit]
      exact tpp_lb_engineFinal cfg si.now l2 _ (le_of_eq hA.symm) hmono
    have hcond := interval_capture_oneInterval cfg sj (engineFinal cfg s (l1 ++ si :: l2))
      k2 hint
    rcases tpp_layerBranch cfg sj (engineFinal cfg s (l1 ++ si :: l2)) with hL | hL
    · have h2 : si.now ≤
          (layerBranch cfg sj (engineFinal cfg s (l1 ++ si :: l2))).1.timePriorPhoto := by
        rw [hL]
        exact hlb
      calc cfg.seconds
          < sj.now - (layerBranch cfg sj
              (engineFinal cfg s (l1 ++ si :: l2))).1.timePriorPhoto := hcond.2
        _ ≤ sj.now - si.now := sub_le_sub_left h2 sj.now
    · exfalso
      have h3 := hcond.2
      rw [hL, sub_self] at h3
      exact absurd h3 (not_lt.mpr h0)

/-- Witness for C4: with -detect none and -seconds 30, a first tick at time
50 (interval elapsed from 0) captures, and a second tick at time 100
captures via the interval trigger again; the theorem yields 30 < 100 - 50. -/
theorem c4_interval_trigger_and_gap_witness :
    let cfg : Config :=
      { seconds := 30, detect := Detect.none, pause := PauseMode.no, movehead := (0, 0) }
    let s0 : EngineState := engineInit
    let si : Sample := { x := 0, y := 0, z := 0, status := statusQuiet, now := 50 }
    let sj : Sample := { x := 0, y := 0, z := 0, status := statusQuiet, now := 100 }
    (∃ k, Event.capture k Reason.interval ∈ (oneInterval cfg si s0).2) ∧
      (30 : ℚ) < sj.now - si.now := by
  intro cfg s0 si sj
  have hmem : ∃ k, Event.capture k Reason.interval ∈ (oneInterval cfg si s0).2 := by
    refine (c4_interval_trigger_and_gap.1 cfg si s0 (by norm_num)).mpr ⟨by norm_num, ?_⟩
    rw [layerBranch_off cfg si s0 (by decide)]
    show (30 : ℚ) < 50 - (0 : ℚ)
    norm_num
  refine ⟨hmem, ?_⟩
  have hmem2 : ∃ k, Event.capture k Reason.interval ∈
      (oneInterval cfg sj (engineFinal cfg s0 ([] ++ si :: []))).2 := by
    refine (c4_interval_trigger_and_gap.1 cfg sj _ (by norm_num)).mpr ⟨by norm_num, ?_⟩
    rw [layerBranch_off cfg sj _ (by decide)]
    have : (engineFinal cfg s0 ([] ++ si :: [])).timePriorPhoto = 50 := by
      show (engineFinal cfg (oneInterval cfg si s0).1 []).timePriorPhoto = 50
      show (oneInterval cfg si s0).1.timePriorPhoto = 50
      rcases hmem with ⟨k, hk⟩
      exact oneInterval_tpp_of_capture cfg si s0 k Reason.interval hk
    rw [this]
    norm_num
  rcases hmem with ⟨k, hk⟩
  exact c4_interval_trigger_and_gap.2.2 cfg s0 [] [] si sj (by norm_num)
    (by simp) (by norm_num) ⟨k, Reason.interval, hk⟩ hmem2

/-- Claim C5: with -detect pause, the detected-pause trigger takes one photo
on every Printing tick whose status contains paused, with no suppression
state: over any sample sequence the number of pause-attributed captures
equals the number of paused samples, so a run of k consecutive paused samples
yields exactly k such captures. -/
theorem c5_pause_trigger_every_tick (cfg : Config) (hd : cfg.detect = Detect.pause)
    (samples : List Sample) (s : EngineState) :
    countReason Reason.pauseDetected (runEngine cfg s samples).flatten =
      (samples.filter fun smp => smp.status.hasPaused).length :=
  countReason_pd_runEngine cfg hd samples s

/-- Witness for C5: three ticks of which the first and third are paused give
exactly two pause-attributed captures. -/
theorem c5_pause_trigger_every_tick_witness :
    countReason Reason.pauseDetected
      (runEngine
        { seconds := 0, detect := Detect.pause, pause := PauseMode.no, movehead := (0, 0) }
        engineInit
        [{ x := 0, y := 0, z := 0, status := statusPaused, now := 0 },
         { x := 0, y := 0, z := 0, status := statusQuiet, now := 0 },
         { x := 0, y := 0, z := 0, status := statusPaused, now := 0 }]).flatten = 2 := by
  rw [c5_pause_trigger_every_tick _ rfl _ _]
  rfl

/-- Claim C6: the video assembly of postProcess happens at most once per
process run and is the final event, with no capture or trigger evaluation
after it; it can only happen after a sample whose status marked the start of
processing was followed by a sample whose status contains idle (the
Printing-to-Finished transition); and it is still invoked when zero frames
were captured, as in the concrete start-idle-quiet run, whose whole trace is
one assembly of 0 frames. -/
theorem c6_assembly_once_after_finished :
    (∀ (cfg : Config) (es : EngineState) (samples : List Sample) (n : ℕ),
      MainEvent.assembleVideo n ∈ run cfg 0 es samples →
      (∃ l, run cfg 0 es samples = l ++ [MainEvent.assembleVideo n] ∧
        ∀ m, MainEvent.assembleVideo m ∉ l) ∧
      (∃ l1 s1 l2 s2 l3, samples = l1 ++ s1 :: (l2 ++ s2 :: l3) ∧
        (s1.status.hasProcessing = true ∨ s1.status.hasM = true) ∧
        s2.status.hasIdle = true)) ∧
    run cfgLayer 0 engineInit
        [{ x := 0, y := 0, z := 0, status := statusProcessing, now := 0 },
         { x := 0, y := 0, z := 0, status := statusIdle, now := 0 },
         { x := 0, y := 0, z := 0, status := statusQuiet, now := 0 }] =
      [MainEvent.assembleVideo 0] := by
  constructor
  · intro cfg es samples n h
    exact ⟨run_assemble_terminal cfg samples 0 es n h,
      run_assemble_state0 cfg samples es n h⟩
  · norm_num [run, oneInterval, layerBranch, intervalBranch, pauseBranch, unPause,
      checkForcePause, onePhoto, cfgLayer, statusProcessing, statusIdle, statusQuiet,
      engineInit, pause_no_ne_yes, det_layer_ne_pause]

/-- Witness for C6 on the concrete zero-frame run: its single assembly event
is terminal and no assembly precedes it. -/
theorem c6_assembly_once_after_finished_witness :
    ∃ l, run cfgLayer 0 engineInit
        [{ x := 0, y := 0, z := 0, status := statusProcessing, now := 0 },
         { x := 0, y := 0, z := 0, status := statusIdle, now := 0 },
         { x := 0, y := 0, z := 0, status := statusQuiet, now := 0 }] =
      l ++ [MainEvent.assembleVideo 0] ∧ ∀ m, MainEvent.assembleVideo m ∉ l := by
  refine (c6_assembly_once_after_finished.1 cfgLayer engineInit _ 0 ?_).1
  rw [c6_assembly_once_after_finished.2]
  simp

/-- Claim C7: from the initial globals, frame starts at 0 and each executed
capture increments it exactly once, whichever triggers fired: over any
Printing run the sequence of capture frame numbers is exactly 1, 2, ..., n
with no index skipped or reused, and the final frame counter equals the
number of captures n. -/
theorem c7_frame_counter_sequential (cfg : Config) (samples : List Sample) :
    captureIndices (runEngine cfg engineInit samples).flatten =
      List.range' 1 (countCaptures (runEngine cfg engineInit samples).flatten) ∧
    (engineFinal cfg engineInit samples).frame =
      countCaptures (runEngine cfg engineInit samples).flatten := by
  have h := frame_indices_runEngine cfg samples engineInit
  refine ⟨?_, ?_⟩
  · have h2 := h.2
    rw [show engineInit.frame = 0 from rfl] at h2
    simpa using h2
  · have h1 := h.1
    rw [show engineInit.frame = 0 from rfl] at h1
    simpa using h1

/-- Claim C8: when movehead differs from (0, 0), the init checks exit with
status 2 at the movehead check, before any printer connection is attempted,
unless -pause yes or -detect pause is given; a configuration satisfying
either condition passes that check. -/
theorem c8_movehead_requires_pause (cam : Camera) (sec : ℚ) (det : Detect)
    (p : PauseMode) (mh : ℚ × ℚ) (hmh : ¬ mh = ((0 : ℚ), (0 : ℚ))) :
    (¬ p = PauseMode.yes ∧ ¬ det = Detect.pause →
      initValidate cam sec det p mh = InitOutcome.exitMoveheadCombo ∧
        exitCode (initValidate cam sec det p mh) = some 2) ∧
    (p = PauseMode.yes ∨ det = Detect.pause →
      ¬ initValidate cam sec det p mh = InitOutcome.exitMoveheadCombo) := by
  unfold initValidate
  rw [if_neg (dlsr_check_false cam)]
  constructor
  · rintro ⟨h1, h2⟩
    rw [if_pos ⟨hmh, h1, h2⟩]
    exact ⟨rfl, rfl⟩
  · intro hor
    have hno : ¬ (¬ mh = ((0 : ℚ), (0 : ℚ)) ∧ ¬ p = PauseMode.yes ∧
        ¬ det = Detect.pause) := by
      rintro ⟨-, h1, h2⟩
      rcases hor with h | h
      · exact h1 h
      · exact h2 h
    rw [if_neg hno]
    by_cases h3 : p = PauseMode.yes ∧ det = Detect.pause
    · rw [if_pos h3]
      decide
    · rw [if_neg h3]
      decide

/-- Witness for C8 at movehead (1, 2): with -pause no -detect layer init
exits at the movehead check; with -detect pause it passes that check. -/
theorem c8_movehead_requires_pause_witness :
    (initValidate Camera.usb 0 Detect.layer PauseMode.no ((1 : ℚ), (2 : ℚ)) =
        InitOutcome.exitMoveheadCombo ∧
      exitCode (initValidate Camera.usb 0 Detect.layer PauseMode.no ((1 : ℚ), (2 : ℚ))) =
        some 2) ∧
    ¬ initValidate Camera.usb 0 Detect.pause PauseMode.no ((1 : ℚ), (2 : ℚ)) =
      InitOutcome.exitMoveheadCombo := by
  constructor
  · exact (c8_movehead_requires_pause Camera.usb 0 Detect.layer PauseMode.no _
      (by norm_num [Prod.mk.injEq])).1 ⟨by decide, by decide⟩
  · exact (c8_movehead_requires_pause Camera.usb 0 Detect.pause PauseMode.no _
      (by norm_num [Prod.mk.injEq])).2 (Or.inr rfl)

/-- Claim C9: -pause yes combined with -detect pause is rejected by init with
exit status 2 at the combination check, before any printer connection is
attempted, for every camera, seconds and movehead value, so the engine never
runs with both set. -/
theorem c9_pause_detect_conflict_rejected (cam : Camera) (sec : ℚ) (mh : ℚ × ℚ) :
    initValidate cam sec Detect.pause PauseMode.yes mh =
      InitOutcome.exitPauseDetectCombo ∧
    exitCode (initValidate cam sec Detect.pause PauseMode.yes mh) = some 2 ∧
    ¬ initValidate cam sec Detect.pause PauseMode.yes mh =
      InitOutcome.connectPrinter := by
  have h : initValidate cam sec Detect.pause PauseMode.yes mh =
      InitOutcome.exitPauseDetectCombo := by
    unfold initValidate
    rw [if_neg (dlsr_check_false cam)]
    rw [if_neg (by rintro ⟨-, h1, -⟩; exact h1 rfl)]
    rw [if_pos ⟨rfl, rfl⟩]
  refine ⟨h, by rw [h]; rfl, by rw [h]; decide⟩

/-- Claim C10: when -pause yes is not in force, alreadyPaused stays false
through every Printing tick and the engine sends no g-code at all, in
particular neither M25 nor M24; with -detect pause it still photographs every
paused sample (one pause-attributed capture per paused tick) yet never
resumes the printer itself. -/
theorem c10_never_pause_or_resume (cfg : Config) (hp : ¬ cfg.pause = PauseMode.yes)
    (samples : List Sample) (s : EngineState) (hs : s.alreadyPaused = false) :
    (engineFinal cfg s samples).alreadyPaused = false ∧
    (∀ g, Event.cmd g ∉ (runEngine cfg s samples).flatten) ∧
    (cfg.detect = Detect.pause →
      countReason Reason.pauseDetected (runEngine cfg s samples).flatten =
        (samples.filter fun smp => smp.status.hasPaused).length) := by
  refine ⟨engineFinal_ap_false cfg samples s hs, runEngine_no_cmd cfg hp samples s hs, ?_⟩
  intro hd
  exact countReason_pd_runEngine cfg hd samples s

/-- Witness for C10: a -detect pause run over one paused sample ends with the
flag still false, has no command events, and took its one pause photo. -/
theorem c10_never_pause_or_resume_witness :
    let cfg : Config :=
      { seconds := 0, detect := Detect.pause, pause := PauseMode.no, movehead := (0, 0) }
    let samples : List Sample := [{ x := 0, y := 0, z := 0, status := statusPaused, now := 0 }]
    (engineFinal cfg engineInit samples).alreadyPaused = false ∧
    (∀ g, Event.cmd g ∉ (runEngine cfg engineInit samples).flatten) ∧
    countReason Reason.pauseDetected (runEngine cfg engineInit samples).flatten =
      (samples.filter fun smp => smp.status.hasPaused).length := by
  intro cfg samples
  have h := c10_never_pause_or_resume cfg (by decide) samples engineInit rfl
  exact ⟨h.1, h.2.1, h.2.2 rfl⟩
